import Mathlib

/-!
Verification of the seismic forward-modeling core of the repository.

The development shallowly embeds the JavaScript source into Lean over the
real numbers: IEEE-754 doubles are modelled as elements of `ℝ`, JavaScript
arrays as `List ℝ`, `Array.prototype.map((_, i) => e)` as a map over the
index range, `Array.prototype.slice(0, n)` as `List.take n`, and the
fallible `fetch` of a Green's-function channel as an `Option`-valued store.
Out-of-range array indexing is modelled by `List.getD _ _ 0` (in the
reference configuration every index used is in range, all traces having the
store's fixed length).
-/

namespace VLabs

/-- The six stored components of the symmetric moment tensor,
from `src/data/tensors.js` (`return { Mrr, Mtt, Mpp, Mrp, Mtp, Mrt }`). -/
structure MomentTensor where
  Mrr : ℝ
  Mtt : ℝ
  Mpp : ℝ
  Mrp : ℝ
  Mtp : ℝ
  Mrt : ℝ

/-- `deg2rad` from `tensors.js`: `(deg * Math.PI) / 180`. -/
noncomputable def deg2rad (deg : ℝ) : ℝ := deg * Real.pi / 180

/-- `M0 = Math.pow(10, 1.5 * magnitudeMw + 9.1)` from `tensors.js` line 11. -/
noncomputable def seismicMoment (magnitudeMw : ℝ) : ℝ :=
  (10 : ℝ) ^ (1.5 * magnitudeMw + 9.1)

/-- `strikeDipRakeToMomentTensor` from `src/data/tensors.js`: converts the
three angles to radians and applies the closed-form double-couple formulas
scaled by `M0`. -/
noncomputable def strikeDipRakeToMomentTensor
    (strike dip rake magnitudeMw : ℝ) : MomentTensor :=
  let s := deg2rad strike
  let d := deg2rad dip
  let r := deg2rad rake
  let M0 := seismicMoment magnitudeMw
  { Mrr := -M0 * (Real.sin d * Real.cos r * Real.sin (2 * s) +
        Real.sin (2 * d) * Real.sin r * Real.sin s * Real.sin s)
    Mtt := M0 * (Real.sin d * Real.cos r * Real.sin (2 * s) -
        Real.sin (2 * d) * Real.sin r * Real.cos s * Real.cos s)
    Mpp := M0 * Real.sin (2 * d) * Real.sin r
    Mrp := -M0 * (Real.cos d * Real.cos r * Real.cos s +
        Real.cos (2 * d) * Real.sin r * Real.sin s)
    Mtp := -M0 * (Real.cos d * Real.cos r * Real.sin s -
        Real.cos (2 * d) * Real.sin r * Real.cos s)
    Mrt := -M0 * (Real.sin d * Real.cos r * Real.cos (2 * s) +
        0.5 * Real.sin (2 * d) * Real.sin r * Real.sin (2 * s)) }

/-- The external Green's-function store: a channel name either resolves to a
basis trace (`fetch` succeeds and yields `json.data`) or fails (`none`). -/
def GreensStore : Type := String → Option (List ℝ)

/-- Channel preloading from `SeismicPlot.jsx` lines 38-51: a successful fetch
stores `json.data`; a failed fetch falls back to `Array(15520).fill(0)`. -/
def lookupTrace (g : GreensStore) (ch : String) : List ℝ :=
  (g ch).getD (List.replicate 15520 0)

/-- The three synthesized output channels (`output = { Z: [], R: [], T: [] }`). -/
structure Seismogram where
  Z : List ℝ
  R : List ℝ
  T : List ℝ

namespace SeismicPlot

/-- The vertical-channel block of `generateWaveforms` in
`src/components/SeismicPlot.jsx` lines 53-72: a map over the indices of the
`ZSS` trace (`greensData["ZSS"].map((_, i) => …)`) followed by
`.slice(0, 4000)`.  `az` is the station azimuth already converted to
radians, as in the surrounding function. -/
noncomputable def zTrace (mt : MomentTensor) (az : ℝ) (g : GreensStore) : List ℝ :=
  let ZSS := lookupTrace g "ZSS"
  let ZDD := lookupTrace g "ZDD"
  let ZEP := lookupTrace g "ZEP"
  let ZDS := lookupTrace g "ZDS"
  let Z := (List.range ZSS.length).map (fun i =>
    mt.Mtt * (ZSS.getD i 0 / 2 * Real.cos (2 * az) -
        ZDD.getD i 0 / 6 + ZEP.getD i 0 / 3) +
    mt.Mpp * (-(ZSS.getD i 0) / 2 * Real.cos (2 * az) -
        ZDD.getD i 0 / 6 + ZEP.getD i 0 / 3) +
    mt.Mrr * (ZDD.getD i 0 / 3 + ZEP.getD i 0 / 3) +
    mt.Mtp * (ZSS.getD i 0 * Real.sin (2 * az)) +
    mt.Mrt * (ZDS.getD i 0 * Real.cos az) +
    mt.Mrp * (ZDS.getD i 0 * Real.sin az))
  Z.take 4000

/-- The radial-channel block of `generateWaveforms` in `SeismicPlot.jsx`
lines 74-93: same structural weights as `zTrace` over the `R*` traces. -/
noncomputable def rTrace (mt : MomentTensor) (az : ℝ) (g : GreensStore) : List ℝ :=
  let RSS := lookupTrace g "RSS"
  let RDD := lookupTrace g "RDD"
  let REP := lookupTrace g "REP"
  let RDS := lookupTrace g "RDS"
  let R := (List.range RSS.length).map (fun i =>
    mt.Mtt * (RSS.getD i 0 / 2 * Real.cos (2 * az) -
        RDD.getD i 0 / 6 + REP.getD i 0 / 3) +
    mt.Mpp * (-(RSS.getD i 0) / 2 * Real.cos (2 * az) -
        RDD.getD i 0 / 6 + REP.getD i 0 / 3) +
    mt.Mrr * (RDD.getD i 0 / 3 + REP.getD i 0 / 3) +
    mt.Mtp * (RSS.getD i 0 * Real.sin (2 * az)) +
    mt.Mrt * (RDS.getD i 0 * Real.cos az) +
    mt.Mrp * (RDS.getD i 0 * Real.sin az))
  R.take 4000

/-- The transverse-channel block of `generateWaveforms` in `SeismicPlot.jsx`
lines 95-107: two basis traces `TSS`, `TDS`. -/
noncomputable def tTrace (mt : MomentTensor) (az : ℝ) (g : GreensStore) : List ℝ :=
  let TSS := lookupTrace g "TSS"
  let TDS := lookupTrace g "TDS"
  let T := (List.range TSS.length).map (fun i =>
    mt.Mtt * (TSS.getD i 0 / 2 * Real.sin (2 * az)) -
    mt.Mpp * (TSS.getD i 0 / 2 * Real.sin (2 * az)) -
    mt.Mtp * (TSS.getD i 0 * Real.cos (2 * az)) +
    mt.Mrt * (TDS.getD i 0 * Real.sin az) -
    mt.Mrp * (TDS.getD i 0 * Real.cos az))
  T.take 4000

/-- `generateWaveforms` from `SeismicPlot.jsx` lines 21-110: builds the
moment tensor from the inputs, converts the azimuth to radians once
(`az = azimuth * Math.PI / 180`), and synthesizes the three channels. -/
noncomputable def generateWaveforms
    (strike dip rake magnitude azimuth : ℝ) (g : GreensStore) : Seismogram :=
  let mt := strikeDipRakeToMomentTensor strike dip rake magnitude
  let az := azimuth * Real.pi / 180
  { Z := zTrace mt az g, R := rTrace mt az g, T := tTrace mt az g }

end SeismicPlot

namespace SeismicSimulator

/-- The vertical-channel block of the duplicated `generateWaveforms` in
`src/components/SeismicSimulator.jsx` lines 132-151. -/
noncomputable def zTrace (mt : MomentTensor) (az : ℝ) (g : GreensStore) : List ℝ :=
  let ZSS := lookupTrace g "ZSS"
  let ZDD := lookupTrace g "ZDD"
  let ZEP := lookupTrace g "ZEP"
  let ZDS := lookupTrace g "ZDS"
  let Z := (List.range ZSS.length).map (fun i =>
    mt.Mtt * (ZSS.getD i 0 / 2 * Real.cos (2 * az) -
        ZDD.getD i 0 / 6 + ZEP.getD i 0 / 3) +
    mt.Mpp * (-(ZSS.getD i 0) / 2 * Real.cos (2 * az) -
        ZDD.getD i 0 / 6 + ZEP.getD i 0 / 3) +
    mt.Mrr * (ZDD.getD i 0 / 3 + ZEP.getD i 0 / 3) +
    mt.Mtp * (ZSS.getD i 0 * Real.sin (2 * az)) +
    mt.Mrt * (ZDS.getD i 0 * Real.cos az) +
    mt.Mrp * (ZDS.getD i 0 * Real.sin az))
  Z.take 4000

/-- The radial-channel block of the duplicated `generateWaveforms` in
`SeismicSimulator.jsx` lines 153-172. -/
noncomputable def rTrace (mt : MomentTensor) (az : ℝ) (g : GreensStore) : List ℝ :=
  let RSS := lookupTrace g "RSS"
  let RDD := lookupTrace g "RDD"
  let REP := lookupTrace g "REP"
  let RDS := lookupTrace g "RDS"
  let R := (List.range RSS.length).map (fun i =>
    mt.Mtt * (RSS.getD i 0 / 2 * Real.cos (2 * az) -
        RDD.getD i 0 / 6 + REP.getD i 0 / 3) +
    mt.Mpp * (-(RSS.getD i 0) / 2 * Real.cos (2 * az) -
        RDD.getD i 0 / 6 + REP.getD i 0 / 3) +
    mt.Mrr * (RDD.getD i 0 / 3 + REP.getD i 0 / 3) +
    mt.Mtp * (RSS.getD i 0 * Real.sin (2 * az)) +
    mt.Mrt * (RDS.getD i 0 * Real.cos az) +
    mt.Mrp * (RDS.getD i 0 * Real.sin az))
  R.take 4000

/-- The transverse-channel block of the duplicated `generateWaveforms` in
`SeismicSimulator.jsx` lines 174-186. -/
noncomputable def tTrace (mt : MomentTensor) (az : ℝ) (g : GreensStore) : List ℝ :=
  let TSS := lookupTrace g "TSS"
  let TDS := lookupTrace g "TDS"
  let T := (List.range TSS.length).map (fun i =>
    mt.Mtt * (TSS.getD i 0 / 2 * Real.sin (2 * az)) -
    mt.Mpp * (TSS.getD i 0 / 2 * Real.sin (2 * az)) -
    mt.Mtp * (TSS.getD i 0 * Real.cos (2 * az)) +
    mt.Mrt * (TDS.getD i 0 * Real.sin az) -
    mt.Mrp * (TDS.getD i 0 * Real.cos az))
  T.take 4000

/-- `generateWaveforms` from `SeismicSimulator.jsx` lines 103-189 (the
duplicate of the one in `SeismicPlot.jsx`, minus the console logging). -/
noncomputable def generateWaveforms
    (strike dip rake magnitude azimuth : ℝ) (g : GreensStore) : Seismogram :=
  let mt := strikeDipRakeToMomentTensor strike dip rake magnitude
  let az := azimuth * Real.pi / 180
  { Z := zTrace mt az g, R := rTrace mt az g, T := tTrace mt az g }

end SeismicSimulator

/-- Per-sample Z/R combination formula as written in the spec (§4.5):
`Mtt·(SS/2·cos2az − DD/6 + EP/3) + Mpp·(−SS/2·cos2az − DD/6 + EP/3) +
Mrr·(DD/3 + EP/3) + Mtp·(SS·sin2az) + Mrt·(DS·cos az) + Mrp·(DS·sin az)`,
evaluated per sample index. -/
noncomputable def specSampleZR (mt : MomentTensor) (az : ℝ)
    (SS DD EP DS : List ℝ) (i : ℕ) : ℝ :=
  mt.Mtt * (SS.getD i 0 / 2 * Real.cos (2 * az) -
      DD.getD i 0 / 6 + EP.getD i 0 / 3) +
  mt.Mpp * (-(SS.getD i 0) / 2 * Real.cos (2 * az) -
      DD.getD i 0 / 6 + EP.getD i 0 / 3) +
  mt.Mrr * (DD.getD i 0 / 3 + EP.getD i 0 / 3) +
  mt.Mtp * (SS.getD i 0 * Real.sin (2 * az)) +
  mt.Mrt * (DS.getD i 0 * Real.cos az) +
  mt.Mrp * (DS.getD i 0 * Real.sin az)

/-- Per-sample transverse formula as written in the spec (§4.5):
`Mtt·(SS/2·sin2az) − Mpp·(SS/2·sin2az) − Mtp·(SS·cos2az) +
Mrt·(DS·sin az) − Mrp·(DS·cos az)`. -/
noncomputable def specSampleT (mt : MomentTensor) (az : ℝ)
    (SS DS : List ℝ) (i : ℕ) : ℝ :=
  mt.Mtt * (SS.getD i 0 / 2 * Real.sin (2 * az)) -
  mt.Mpp * (SS.getD i 0 / 2 * Real.sin (2 * az)) -
  mt.Mtp * (SS.getD i 0 * Real.cos (2 * az)) +
  mt.Mrt * (DS.getD i 0 * Real.sin az) -
  mt.Mrp * (DS.getD i 0 * Real.cos az)

theorem seismicMoment_pos (m : ℝ) : 0 < seismicMoment m :=
  Real.rpow_pos_of_pos (by norm_num) _

theorem trace_eq_zero (strike dip rake magnitudeMw : ℝ) :
    (strikeDipRakeToMomentTensor strike dip rake magnitudeMw).Mrr +
      (strikeDipRakeToMomentTensor strike dip rake magnitudeMw).Mtt +
      (strikeDipRakeToMomentTensor strike dip rake magnitudeMw).Mpp = 0 := by
  unfold strikeDipRakeToMomentTensor
  have h := Real.sin_sq_add_cos_sq (deg2rad strike)
  simp only
  linear_combination (-(seismicMoment magnitudeMw * Real.sin (2 * deg2rad dip) *
    Real.sin (deg2rad rake))) * h

end VLabs

/-- C2: for every strike, dip, rake and magnitude, the tensor returned by
`strikeDipRakeToMomentTensor` has trace `Mrr + Mtt + Mpp` within
`1e-6 * M0` of zero, where `M0 = 10 ^ (1.5 * magnitude + 9.1)`
(double-couple tracelessness).  In the real-number embedding the trace is
exactly zero, so the bound holds with room to spare. -/
theorem C2_double_couple_traceless (strike dip rake magnitudeMw : ℝ) :
    |(VLabs.strikeDipRakeToMomentTensor strike dip rake magnitudeMw).Mrr +
      (VLabs.strikeDipRakeToMomentTensor strike dip rake magnitudeMw).Mtt +
      (VLabs.strikeDipRakeToMomentTensor strike dip rake magnitudeMw).Mpp| ≤
      1e-6 * VLabs.seismicMoment magnitudeMw := by
  rw [VLabs.trace_eq_zero, abs_zero]
  have := VLabs.seismicMoment_pos magnitudeMw
  nlinarith

namespace VLabs

theorem getD_take_map_range (f : ℕ → ℝ) (n m i : ℕ)
    (h : i < (((List.range n).map f).take m).length) :
    (((List.range n).map f).take m).getD i 0 = f i := by
  rw [List.getD_eq_getElem _ _ h, List.getElem_take, List.getElem_map,
    List.getElem_range]

theorem zTrace_eq_spec (mt : MomentTensor) (az : ℝ) (g : GreensStore) :
    SeismicPlot.zTrace mt az g =
      ((List.range (lookupTrace g "ZSS").length).map
        (specSampleZR mt az (lookupTrace g "ZSS") (lookupTrace g "ZDD")
          (lookupTrace g "ZEP") (lookupTrace g "ZDS"))).take 4000 := rfl

theorem rTrace_eq_spec (mt : MomentTensor) (az : ℝ) (g : GreensStore) :
    SeismicPlot.rTrace mt az g =
      ((List.range (lookupTrace g "RSS").length).map
        (specSampleZR mt az (lookupTrace g "RSS") (lookupTrace g "RDD")
          (lookupTrace g "REP") (lookupTrace g "RDS"))).take 4000 := rfl

theorem tTrace_eq_spec (mt : MomentTensor) (az : ℝ) (g : GreensStore) :
    SeismicPlot.tTrace mt az g =
      ((List.range (lookupTrace g "TSS").length).map
        (specSampleT mt az (lookupTrace g "TSS") (lookupTrace g "TDS"))).take
        4000 := rfl

/-- The far-field radiation amplitude `u` evaluated in `generateShadedDots`
(`BeachBallDiagram.jsx` lines 155-161) and `generateRadiationLobe`
(lines 187-193): the quadratic form of the moment tensor at a direction
`(x, y, z)`. -/
noncomputable def radiationAmplitude (mt : MomentTensor) (x y z : ℝ) : ℝ :=
  mt.Mrr * x * x + mt.Mtt * y * y + mt.Mpp * z * z +
    2 * mt.Mrt * x * y + 2 * mt.Mrp * x * z + 2 * mt.Mtp * y * z

theorem zTrace_congr (mt : MomentTensor) (az : ℝ) (g g' : GreensStore)
    (h1 : lookupTrace g "ZSS" = lookupTrace g' "ZSS")
    (h2 : lookupTrace g "ZDD" = lookupTrace g' "ZDD")
    (h3 : lookupTrace g "ZEP" = lookupTrace g' "ZEP")
    (h4 : lookupTrace g "ZDS" = lookupTrace g' "ZDS") :
    SeismicPlot.zTrace mt az g = SeismicPlot.zTrace mt az g' := by
  simp only [SeismicPlot.zTrace]
  rw [h1, h2, h3, h4]

theorem seismicMoment_succ (m : ℝ) :
    seismicMoment (m + 1) = (10 : ℝ) ^ (1.5 : ℝ) * seismicMoment m := by
  unfold seismicMoment
  rw [show (1.5 * (m + 1) + 9.1 : ℝ) = 1.5 + (1.5 * m + 9.1) by ring,
    Real.rpow_add (by norm_num : (0 : ℝ) < 10)]

theorem strikeDipRake_succ (strike dip rake m : ℝ) :
    strikeDipRakeToMomentTensor strike dip rake (m + 1) =
      ⟨(10 : ℝ) ^ (1.5 : ℝ) *
          (strikeDipRakeToMomentTensor strike dip rake m).Mrr,
        (10 : ℝ) ^ (1.5 : ℝ) *
          (strikeDipRakeToMomentTensor strike dip rake m).Mtt,
        (10 : ℝ) ^ (1.5 : ℝ) *
          (strikeDipRakeToMomentTensor strike dip rake m).Mpp,
        (10 : ℝ) ^ (1.5 : ℝ) *
          (strikeDipRakeToMomentTensor strike dip rake m).Mrp,
        (10 : ℝ) ^ (1.5 : ℝ) *
          (strikeDipRakeToMomentTensor strike dip rake m).Mtp,
        (10 : ℝ) ^ (1.5 : ℝ) *
          (strikeDipRakeToMomentTensor strike dip rake m).Mrt⟩ := by
  simp only [strikeDipRakeToMomentTensor]
  congr 1 <;> rw [seismicMoment_succ] <;> ring

theorem zTrace_smul (c : ℝ) (mt : MomentTensor) (az : ℝ) (g : GreensStore) :
    SeismicPlot.zTrace
        ⟨c * mt.Mrr, c * mt.Mtt, c * mt.Mpp, c * mt.Mrp, c * mt.Mtp,
          c * mt.Mrt⟩ az g =
      (SeismicPlot.zTrace mt az g).map (fun x => c * x) := by
  simp only [SeismicPlot.zTrace]
  rw [List.map_take, List.map_map]
  congr 1
  apply List.map_congr_left
  intro a _
  simp only [Function.comp_apply]
  ring

theorem rTrace_smul (c : ℝ) (mt : MomentTensor) (az : ℝ) (g : GreensStore) :
    SeismicPlot.rTrace
        ⟨c * mt.Mrr, c * mt.Mtt, c * mt.Mpp, c * mt.Mrp, c * mt.Mtp,
          c * mt.Mrt⟩ az g =
      (SeismicPlot.rTrace mt az g).map (fun x => c * x) := by
  simp only [SeismicPlot.rTrace]
  rw [List.map_take, List.map_map]
  congr 1
  apply List.map_congr_left
  intro a _
  simp only [Function.comp_apply]
  ring

theorem tTrace_smul (c : ℝ) (mt : MomentTensor) (az : ℝ) (g : GreensStore) :
    SeismicPlot.tTrace
        ⟨c * mt.Mrr, c * mt.Mtt, c * mt.Mpp, c * mt.Mrp, c * mt.Mtp,
          c * mt.Mrt⟩ az g =
      (SeismicPlot.tTrace mt az g).map (fun x => c * x) := by
  simp only [SeismicPlot.tTrace]
  rw [List.map_take, List.map_map]
  congr 1
  apply List.map_congr_left
  intro a _
  simp only [Function.comp_apply]
  ring

end VLabs

open VLabs in
/-- C5: replacing the magnitude `m` by `m + 1` multiplies `M0` by exactly
`10 ^ 1.5`, multiplies each of the six tensor components by that same
factor, and, for a fixed azimuth and Green's-function store, multiplies
every sample of the synthesized Z, R and T traces by that same factor
(linearity in `M0`). -/
theorem C5_magnitude_plus_one_scales (strike dip rake m azimuth : ℝ)
    (g : GreensStore) :
    seismicMoment (m + 1) = (10 : ℝ) ^ (1.5 : ℝ) * seismicMoment m ∧
    (strikeDipRakeToMomentTensor strike dip rake (m + 1)).Mrr =
      (10 : ℝ) ^ (1.5 : ℝ) *
        (strikeDipRakeToMomentTensor strike dip rake m).Mrr ∧
    (strikeDipRakeToMomentTensor strike dip rake (m + 1)).Mtt =
      (10 : ℝ) ^ (1.5 : ℝ) *
        (strikeDipRakeToMomentTensor strike dip rake m).Mtt ∧
    (strikeDipRakeToMomentTensor strike dip rake (m + 1)).Mpp =
      (10 : ℝ) ^ (1.5 : ℝ) *
        (strikeDipRakeToMomentTensor strike dip rake m).Mpp ∧
    (strikeDipRakeToMomentTensor strike dip rake (m + 1)).Mrp =
      (10 : ℝ) ^ (1.5 : ℝ) *
        (strikeDipRakeToMomentTensor strike dip rake m).Mrp ∧
    (strikeDipRakeToMomentTensor strike dip rake (m + 1)).Mtp =
      (10 : ℝ) ^ (1.5 : ℝ) *
        (strikeDipRakeToMomentTensor strike dip rake m).Mtp ∧
    (strikeDipRakeToMomentTensor strike dip rake (m + 1)).Mrt =
      (10 : ℝ) ^ (1.5 : ℝ) *
        (strikeDipRakeToMomentTensor strike dip rake m).Mrt ∧
    (SeismicPlot.generateWaveforms strike dip rake (m + 1) azimuth g).Z =
      (SeismicPlot.generateWaveforms strike dip rake m azimuth g).Z.map
        (fun x => (10 : ℝ) ^ (1.5 : ℝ) * x) ∧
    (SeismicPlot.generateWaveforms strike dip rake (m + 1) azimuth g).R =
      (SeismicPlot.generateWaveforms strike dip rake m azimuth g).R.map
        (fun x => (10 : ℝ) ^ (1.5 : ℝ) * x) ∧
    (SeismicPlot.generateWaveforms strike dip rake (m + 1) azimuth g).T =
      (SeismicPlot.generateWaveforms strike dip rake m azimuth g).T.map
        (fun x => (10 : ℝ) ^ (1.5 : ℝ) * x) := by
  refine ⟨seismicMoment_succ m, ?_, ?_, ?_, ?_, ?_, ?_, ?_, ?_, ?_⟩
  · rw [strikeDipRake_succ]
  · rw [strikeDipRake_succ]
  · rw [strikeDipRake_succ]
  · rw [strikeDipRake_succ]
  · rw [strikeDipRake_succ]
  · rw [strikeDipRake_succ]
  · show SeismicPlot.zTrace (strikeDipRakeToMomentTensor strike dip rake
        (m + 1)) (azimuth * Real.pi / 180) g =
      (SeismicPlot.zTrace (strikeDipRakeToMomentTensor strike dip rake m)
        (azimuth * Real.pi / 180) g).map (fun x => (10 : ℝ) ^ (1.5 : ℝ) * x)
    rw [strikeDipRake_succ, zTrace_smul]
  · show SeismicPlot.rTrace (strikeDipRakeToMomentTensor strike dip rake
        (m + 1)) (azimuth * Real.pi / 180) g =
      (SeismicPlot.rTrace (strikeDipRakeToMomentTensor strike dip rake m)
        (azimuth * Real.pi / 180) g).map (fun x => (10 : ℝ) ^ (1.5 : ℝ) * x)
    rw [strikeDipRake_succ, rTrace_smul]
  · show SeismicPlot.tTrace (strikeDipRakeToMomentTensor strike dip rake
        (m + 1)) (azimuth * Real.pi / 180) g =
      (SeismicPlot.tTrace (strikeDipRakeToMomentTensor strike dip rake m)
        (azimuth * Real.pi / 180) g).map (fun x => (10 : ℝ) ^ (1.5 : ℝ) * x)
    rw [strikeDipRake_succ, tTrace_smul]

namespace VLabs

/-- `THREE.Vector3.length()`: `sqrt(x*x + y*y + z*z)`. -/
noncomputable def vecLen (v : ℝ × ℝ × ℝ) : ℝ :=
  Real.sqrt (v.1 * v.1 + v.2.1 * v.2.1 + v.2.2 * v.2.2)

/-- `THREE.Vector3.normalize()`: `divideScalar(length() || 1)` (a zero
vector is left unchanged). -/
noncomputable def vecNormalize (v : ℝ × ℝ × ℝ) : ℝ × ℝ × ℝ :=
  let l := if vecLen v = 0 then 1 else vecLen v
  (v.1 / l, v.2.1 / l, v.2.2 / l)

/-- The loop body of `generateNodalGreatCircles` in `BeachBallDiagram.jsx`
lines 220-227, at integer azimuth degree `a`: the plane point before
normalization is `(cos az, sin az, -tan(dip)·(x·sin(strike) −
y·cos(strike)))`, then `normalize()`. -/
noncomputable def greatCirclePoint (strike dip : ℝ) (a : ℕ) : ℝ × ℝ × ℝ :=
  let az := deg2rad a
  let x := Real.cos az
  let y := Real.sin az
  let z := -Real.tan dip * (x * Real.sin strike - y * Real.cos strike)
  vecNormalize (x, y, z)

/-- One great circle of `generateNodalGreatCircles`: the loop
`for (a = 0; a <= 360; a++)` collects the 361 points at azimuths
`0°, 1°, …, 360°`. -/
noncomputable def greatCircle (strike dip : ℝ) : List (ℝ × ℝ × ℝ) :=
  (List.range 361).map (greatCirclePoint strike dip)

/-- One eigen-pair as assembled in `InteractiveBeachBall`
(`BeachBallDiagram.jsx` lines 27-28): an eigenvalue together with its
original position `idx` in the eigen-solver's output and the corresponding
eigenvector column. -/
structure EigPair where
  val : ℝ
  idx : ℕ
  vec : ℝ × ℝ × ℝ

instance : Inhabited EigPair := ⟨⟨0, 0, (0, 0, 0)⟩⟩

/-- Stable ascending insertion into a sorted list: an incoming element
(earlier in the original order) is placed before any element of equal
value.  Together with `sortByVal` this models ECMAScript
`Array.prototype.sort((a, b) => a.val - b.val)`, which is required to be a
stable sort consistent with the comparator. -/
noncomputable def insertAsc (x : EigPair) : List EigPair → List EigPair
  | [] => [x]
  | y :: ys => if x.val ≤ y.val then x :: y :: ys else y :: insertAsc x ys

/-- Stable ascending sort by eigenvalue, modelling
`.sort((a, b) => a.val - b.val)` in `BeachBallDiagram.jsx` line 29. -/
noncomputable def sortByVal : List EigPair → List EigPair
  | [] => []
  | x :: xs => insertAsc x (sortByVal xs)

/-- The sorted eigen-pair list of `InteractiveBeachBall` lines 27-29 for the
eigen-solver's three eigenvalues `v0, v1, v2` (original indices 0, 1, 2)
and eigenvector columns `w`. -/
noncomputable def sortedEigPairs (v0 v1 v2 : ℝ)
    (w : ℕ → ℝ × ℝ × ℝ) : List EigPair :=
  sortByVal [⟨v0, 0, w 0⟩, ⟨v1, 1, w 1⟩, ⟨v2, 2, w 2⟩]

/-- The P/B/T axis assignment of `InteractiveBeachBall` lines 31-33:
`P = sorted[0]`, `B = sorted[1]`, `T = sorted[2]`. -/
noncomputable def principalAxes (v0 v1 v2 : ℝ)
    (w : ℕ → ℝ × ℝ × ℝ) : EigPair × EigPair × EigPair :=
  let s := sortedEigPairs v0 v1 v2 w
  (s.getD 0 default, s.getD 1 default, s.getD 2 default)

theorem insertAsc_cons_le (x y : EigPair) (ys : List EigPair)
    (h : x.val ≤ y.val) : insertAsc x (y :: ys) = x :: y :: ys := by
  simp only [insertAsc]
  exact if_pos h

theorem insertAsc_cons_gt (x y : EigPair) (ys : List EigPair)
    (h : ¬x.val ≤ y.val) : insertAsc x (y :: ys) = y :: insertAsc x ys := by
  simp only [insertAsc]
  exact if_neg h

theorem principalAxes_eq (v0 v1 v2 : ℝ) (w : ℕ → ℝ × ℝ × ℝ)
    (pa pb pc : EigPair)
    (hlist : sortedEigPairs v0 v1 v2 w = [pa, pb, pc]) :
    principalAxes v0 v1 v2 w = (pa, pb, pc) := by
  simp only [principalAxes, hlist]
  rfl

/-- JavaScript's `%` on doubles: the remainder with the dividend's sign,
`a - b * trunc(a / b)`. -/
noncomputable def jsMod (a b : ℝ) : ℝ :=
  a - b * (if 0 ≤ a / b then (⌊a / b⌋ : ℝ) else (⌈a / b⌉ : ℝ))

/-- `generateNodalGreatCircles` from `BeachBallDiagram.jsx` lines 206-230:
plane 1 is the input fault plane, plane 2 the auxiliary plane with
`strike + π/2 (mod 2π)` and `dip = acos(cos(dip)·cos(π/2))`; each plane is
mapped to its 361-point great circle.  The `rakeDeg` argument is accepted
and ignored, as in the source. -/
noncomputable def generateNodalGreatCircles
    (strikeDeg dipDeg rakeDeg : ℝ) : List (List (ℝ × ℝ × ℝ)) :=
  let strike := deg2rad strikeDeg
  let dip := deg2rad dipDeg
  [greatCircle strike dip,
    greatCircle (jsMod (strike + Real.pi / 2) (2 * Real.pi))
      (Real.arccos (Real.cos dip * Real.cos (Real.pi / 2)))]

theorem getD_map_range {α : Type} (f : ℕ → α) (d : α) (n i : ℕ) (h : i < n) :
    ((List.range n).map f).getD i d = f i := by
  have h' : i < ((List.range n).map f).length := by
    simpa using h
  rw [List.getD_eq_getElem _ _ h', List.getElem_map, List.getElem_range]

theorem vecLen_vecNormalize (v : ℝ × ℝ × ℝ)
    (h : 0 < v.1 * v.1 + v.2.1 * v.2.1 + v.2.2 * v.2.2) :
    vecLen (vecNormalize v) = 1 := by
  have hpos : 0 < vecLen v := Real.sqrt_pos.mpr h
  have hll : vecLen v * vecLen v =
      v.1 * v.1 + v.2.1 * v.2.1 + v.2.2 * v.2.2 :=
    Real.mul_self_sqrt (le_of_lt h)
  simp only [vecNormalize]
  rw [if_neg hpos.ne']
  show Real.sqrt (v.1 / vecLen v * (v.1 / vecLen v) +
      v.2.1 / vecLen v * (v.2.1 / vecLen v) +
      v.2.2 / vecLen v * (v.2.2 / vecLen v)) = 1
  have hsum : v.1 / vecLen v * (v.1 / vecLen v) +
      v.2.1 / vecLen v * (v.2.1 / vecLen v) +
      v.2.2 / vecLen v * (v.2.2 / vecLen v) =
      (v.1 * v.1 + v.2.1 * v.2.1 + v.2.2 * v.2.2) /
        (vecLen v * vecLen v) := by
    ring
  rw [hsum, hll, div_self h.ne', Real.sqrt_one]

theorem vecLen_greatCirclePoint (s d : ℝ) (a : ℕ) :
    vecLen (greatCirclePoint s d a) = 1 := by
  simp only [greatCirclePoint]
  apply vecLen_vecNormalize
  simp only
  have h1 : Real.sin (deg2rad a) ^ 2 + Real.cos (deg2rad a) ^ 2 = 1 :=
    Real.sin_sq_add_cos_sq (deg2rad a)
  nlinarith [mul_self_nonneg (-Real.tan d *
    (Real.cos (deg2rad a) * Real.sin s - Real.sin (deg2rad a) * Real.cos s))]

theorem greatCirclePoint_closed (s d : ℝ) :
    greatCirclePoint s d 0 = greatCirclePoint s d 360 := by
  simp only [greatCirclePoint]
  have h0 : deg2rad ((0 : ℕ) : ℝ) = 0 := by
    push_cast
    unfold deg2rad
    ring
  have h360 : deg2rad ((360 : ℕ) : ℝ) = 2 * Real.pi := by
    push_cast
    unfold deg2rad
    ring
  rw [h0, h360, Real.cos_zero, Real.sin_zero, Real.cos_two_pi,
    Real.sin_two_pi]

theorem greatCircle_props (s d : ℝ) :
    (greatCircle s d).length = 361 ∧
    (greatCircle s d).getD 0 (0, 0, 0) =
      (greatCircle s d).getD 360 (0, 0, 0) ∧
    (∀ i, i < 361 →
      (greatCircle s d).getD i (0, 0, 0) = greatCirclePoint s d i) ∧
    ∀ i, i < 361 →
      |vecLen ((greatCircle s d).getD i (0, 0, 0)) - 1| ≤ 1e-9 := by
  have hget : ∀ i, i < 361 →
      (greatCircle s d).getD i (0, 0, 0) = greatCirclePoint s d i := by
    intro i hi
    exact getD_map_range _ _ _ _ hi
  refine ⟨by simp [greatCircle], ?_, hget, ?_⟩
  · rw [hget 0 (by norm_num), hget 360 (by norm_num)]
    exact greatCirclePoint_closed s d
  · intro i hi
    rw [hget i hi, vecLen_greatCirclePoint, sub_self, abs_zero]
    norm_num

end VLabs

open VLabs in
/-- C7: for every strike, dip (and ignored rake), each of the two
nodal-plane great circles returned by `generateNodalGreatCircles` is the
ordered 361-point sequence at azimuths 0° through 360° in 1° steps
(`c.getD i = greatCirclePoint _ _ i`), its first and last points are equal
(closed loop), and every point has unit length within `1e-9`. -/
theorem C7_great_circle_closed_unit (strikeDeg dipDeg rakeDeg : ℝ)
    (c : List (ℝ × ℝ × ℝ))
    (hc : c ∈ generateNodalGreatCircles strikeDeg dipDeg rakeDeg) :
    c.length = 361 ∧
    c.getD 0 (0, 0, 0) = c.getD 360 (0, 0, 0) ∧
    (∃ s' d', ∀ i, i < 361 →
      c.getD i (0, 0, 0) = greatCirclePoint s' d' i) ∧
    ∀ i, i < 361 → |vecLen (c.getD i (0, 0, 0)) - 1| ≤ 1e-9 := by
  simp only [generateNodalGreatCircles, List.mem_cons,
    List.not_mem_nil, or_false] at hc
  rcases hc with rfl | rfl
  · obtain ⟨h1, h2, h3, h4⟩ := greatCircle_props (deg2rad strikeDeg)
      (deg2rad dipDeg)
    exact ⟨h1, h2, ⟨_, _, h3⟩, h4⟩
  · obtain ⟨h1, h2, h3, h4⟩ := greatCircle_props
      (jsMod (deg2rad strikeDeg + Real.pi / 2) (2 * Real.pi))
      (Real.arccos (Real.cos (deg2rad dipDeg) * Real.cos (Real.pi / 2)))
    exact ⟨h1, h2, ⟨_, _, h3⟩, h4⟩

open VLabs in
/-- Witness for C7: the first circle of the strike-0, dip-0 nodal planes;
membership in the returned pair of circles holds definitionally. -/
theorem C7_great_circle_closed_unit_witness :
    (greatCircle (deg2rad 0) (deg2rad 0) ∈
      generateNodalGreatCircles 0 0 0) ∧
    ((greatCircle (deg2rad 0) (deg2rad 0)).length = 361 ∧
      (greatCircle (deg2rad 0) (deg2rad 0)).getD 0 (0, 0, 0) =
        (greatCircle (deg2rad 0) (deg2rad 0)).getD 360 (0, 0, 0) ∧
      (∃ s' d', ∀ i, i < 361 →
        (greatCircle (deg2rad 0) (deg2rad 0)).getD i (0, 0, 0) =
          greatCirclePoint s' d' i) ∧
      ∀ i, i < 361 →
        |vecLen ((greatCircle (deg2rad 0) (deg2rad 0)).getD i (0, 0, 0)) -
          1| ≤ 1e-9) := by
  have hmem : greatCircle (deg2rad 0) (deg2rad 0) ∈
      generateNodalGreatCircles 0 0 0 := by
    simp [generateNodalGreatCircles]
  exact ⟨hmem, C7_great_circle_closed_unit 0 0 0 _ hmem⟩

open VLabs in
/-- C4: for every moment tensor and every direction `(x, y, z)`, the
radiation amplitude `u` evaluated at the antipodal direction
`(-x, -y, -z)` is exactly the amplitude evaluated at `(x, y, z)` (the
quadratic form is even). -/
theorem C4_amplitude_even (mt : MomentTensor) (x y z : ℝ) :
    radiationAmplitude mt (-x) (-y) (-z) = radiationAmplitude mt x y z := by
  unfold radiationAmplitude
  ring

open VLabs in
/-- C6: a failed retrieval of a Green's-function channel is replaced by a
zero-filled trace of the fixed length 15520 and never surfaces a failure
(the lookup is total); in particular, a failed fetch of channel `ZDS`
yields a synthesized Z trace identical to the one computed with `ZDS`
replaced by an all-zero array of that length. -/
theorem C6_missing_channel_zero_fallback (g : GreensStore) (mt : MomentTensor)
    (az : ℝ) (h : g "ZDS" = none) :
    lookupTrace g "ZDS" = List.replicate 15520 0 ∧
    SeismicPlot.zTrace mt az g =
      SeismicPlot.zTrace mt az
        (fun ch => if ch = "ZDS" then some (List.replicate 15520 0)
          else g ch) := by
  have hZDS : lookupTrace g "ZDS" = List.replicate 15520 0 := by
    unfold lookupTrace
    rw [h, Option.getD_none]
  refine ⟨hZDS, zTrace_congr mt az g _ ?_ ?_ ?_ ?_⟩
  · show lookupTrace g "ZSS" = Option.getD
      (if ("ZSS" : String) = "ZDS" then some (List.replicate 15520 0)
        else g "ZSS") (List.replicate 15520 0)
    rw [if_neg (by decide)]
    rfl
  · show lookupTrace g "ZDD" = Option.getD
      (if ("ZDD" : String) = "ZDS" then some (List.replicate 15520 0)
        else g "ZDD") (List.replicate 15520 0)
    rw [if_neg (by decide)]
    rfl
  · show lookupTrace g "ZEP" = Option.getD
      (if ("ZEP" : String) = "ZDS" then some (List.replicate 15520 0)
        else g "ZEP") (List.replicate 15520 0)
    rw [if_neg (by decide)]
    rfl
  · show lookupTrace g "ZDS" = Option.getD
      (if ("ZDS" : String) = "ZDS" then some (List.replicate 15520 0)
        else g "ZDS") (List.replicate 15520 0)
    rw [hZDS, if_pos rfl, Option.getD_some]

open VLabs in
/-- Witness for C6: the everywhere-failing store, the unit tensor, azimuth
`0`; the hypothesis (the `ZDS` fetch fails) holds definitionally. -/
theorem C6_missing_channel_zero_fallback_witness :
    ((fun _ => none : GreensStore) "ZDS" = none) ∧
    (lookupTrace (fun _ => none) "ZDS" = List.replicate 15520 0 ∧
      SeismicPlot.zTrace ⟨1, 1, 1, 1, 1, 1⟩ 0 (fun _ => none) =
        SeismicPlot.zTrace ⟨1, 1, 1, 1, 1, 1⟩ 0
          (fun ch => if ch = "ZDS" then some (List.replicate 15520 0)
            else (fun _ => none : GreensStore) ch)) :=
  ⟨rfl, C6_missing_channel_zero_fallback (fun _ => none) ⟨1, 1, 1, 1, 1, 1⟩ 0 rfl⟩

open VLabs in
/-- C8 counterexample: a store whose every channel holds a one-sample trace
yields a synthesized Z trace of length 1, not the claimed fixed 4000
(`slice(0, 4000)` truncates but never pads). -/
theorem C8_counterexample_short_store :
    (SeismicPlot.generateWaveforms 0 0 0 0 0 (fun _ => some [0])).Z.length ≠
      4000 := by
  have h : (SeismicPlot.generateWaveforms 0 0 0 0 0
      (fun _ => some [0])).Z.length = 1 := by
    simp [SeismicPlot.generateWaveforms, SeismicPlot.zTrace, lookupTrace]
  omega

open VLabs in
/-- C8 (amended): each synthesized output trace has length
`min(basis length, 4000)` where the basis length is that of the channel's
driving trace (`ZSS`, `RSS`, `TSS` respectively): exactly 4000 samples when
the driving basis trace has at least 4000 samples (as with the reference
length 15520), shorter otherwise (truncation only, no padding). -/
theorem C8_amended_output_length (mt : MomentTensor) (az : ℝ)
    (g : GreensStore) :
    (SeismicPlot.zTrace mt az g).length =
      min (lookupTrace g "ZSS").length 4000 ∧
    (SeismicPlot.rTrace mt az g).length =
      min (lookupTrace g "RSS").length 4000 ∧
    (SeismicPlot.tTrace mt az g).length =
      min (lookupTrace g "TSS").length 4000 := by
  refine ⟨?_, ?_, ?_⟩ <;>
    · simp only [SeismicPlot.zTrace, SeismicPlot.rTrace, SeismicPlot.tTrace,
        List.length_take, List.length_map, List.length_range]
      omega

open VLabs in
/-- C1: for every moment tensor `mt`, (radian) azimuth `az`, and
Green's-function store `g`, each sample `i` of the synthesized vertical and
radial traces equals the spec's Z/R combination formula over that channel's
four basis traces, and each sample of the transverse trace equals the spec's
T formula over its two basis traces. -/
theorem C1_sample_formula (mt : MomentTensor) (az : ℝ) (g : GreensStore)
    (i : ℕ) :
    (i < (SeismicPlot.zTrace mt az g).length →
      (SeismicPlot.zTrace mt az g).getD i 0 =
        specSampleZR mt az (lookupTrace g "ZSS") (lookupTrace g "ZDD")
          (lookupTrace g "ZEP") (lookupTrace g "ZDS") i) ∧
    (i < (SeismicPlot.rTrace mt az g).length →
      (SeismicPlot.rTrace mt az g).getD i 0 =
        specSampleZR mt az (lookupTrace g "RSS") (lookupTrace g "RDD")
          (lookupTrace g "REP") (lookupTrace g "RDS") i) ∧
    (i < (SeismicPlot.tTrace mt az g).length →
      (SeismicPlot.tTrace mt az g).getD i 0 =
        specSampleT mt az (lookupTrace g "TSS") (lookupTrace g "TDS") i) := by
  refine ⟨fun h => ?_, fun h => ?_, fun h => ?_⟩
  · rw [zTrace_eq_spec] at h ⊢
    exact getD_take_map_range _ _ _ _ h
  · rw [rTrace_eq_spec] at h ⊢
    exact getD_take_map_range _ _ _ _ h
  · rw [tTrace_eq_spec] at h ⊢
    exact getD_take_map_range _ _ _ _ h

open VLabs in
/-- Witness for C1 at a concrete input: a store whose every channel holds the
one-sample trace `[1]`, the unit tensor, azimuth `0`, sample `0`. -/
theorem C1_sample_formula_witness :
    (0 < (SeismicPlot.zTrace ⟨1, 1, 1, 1, 1, 1⟩ 0 (fun _ => some [1])).length ∧
      (SeismicPlot.zTrace ⟨1, 1, 1, 1, 1, 1⟩ 0 (fun _ => some [1])).getD 0 0 =
        specSampleZR ⟨1, 1, 1, 1, 1, 1⟩ 0
          (lookupTrace (fun _ => some [1]) "ZSS")
          (lookupTrace (fun _ => some [1]) "ZDD")
          (lookupTrace (fun _ => some [1]) "ZEP")
          (lookupTrace (fun _ => some [1]) "ZDS") 0) ∧
    (0 < (SeismicPlot.rTrace ⟨1, 1, 1, 1, 1, 1⟩ 0 (fun _ => some [1])).length ∧
      (SeismicPlot.rTrace ⟨1, 1, 1, 1, 1, 1⟩ 0 (fun _ => some [1])).getD 0 0 =
        specSampleZR ⟨1, 1, 1, 1, 1, 1⟩ 0
          (lookupTrace (fun _ => some [1]) "RSS")
          (lookupTrace (fun _ => some [1]) "RDD")
          (lookupTrace (fun _ => some [1]) "REP")
          (lookupTrace (fun _ => some [1]) "RDS") 0) ∧
    (0 < (SeismicPlot.tTrace ⟨1, 1, 1, 1, 1, 1⟩ 0 (fun _ => some [1])).length ∧
      (SeismicPlot.tTrace ⟨1, 1, 1, 1, 1, 1⟩ 0 (fun _ => some [1])).getD 0 0 =
        specSampleT ⟨1, 1, 1, 1, 1, 1⟩ 0
          (lookupTrace (fun _ => some [1]) "TSS")
          (lookupTrace (fun _ => some [1]) "TDS") 0) := by
  have hZ : 0 <
      (SeismicPlot.zTrace ⟨1, 1, 1, 1, 1, 1⟩ 0 (fun _ => some [1])).length := by
    rw [zTrace_eq_spec]
    simp [lookupTrace]
  have hR : 0 <
      (SeismicPlot.rTrace ⟨1, 1, 1, 1, 1, 1⟩ 0 (fun _ => some [1])).length := by
    rw [rTrace_eq_spec]
    simp [lookupTrace]
  have hT : 0 <
      (SeismicPlot.tTrace ⟨1, 1, 1, 1, 1, 1⟩ 0 (fun _ => some [1])).length := by
    rw [tTrace_eq_spec]
    simp [lookupTrace]
  exact ⟨⟨hZ, (C1_sample_formula ⟨1, 1, 1, 1, 1, 1⟩ 0 (fun _ => some [1]) 0).1 hZ⟩,
    ⟨hR, (C1_sample_formula ⟨1, 1, 1, 1, 1, 1⟩ 0 (fun _ => some [1]) 0).2.1 hR⟩,
    ⟨hT, (C1_sample_formula ⟨1, 1, 1, 1, 1, 1⟩ 0 (fun _ => some [1]) 0).2.2 hT⟩⟩

/-- C10: the waveform synthesis in `SeismicPlot.jsx` and the duplicated
implementation in `SeismicSimulator.jsx` produce identical Z, R and T arrays
on identical inputs and store contents (the two embedded `generateWaveforms`
functions are extensionally equal). -/
theorem C10_duplicate_synthesizers_agree
    (strike dip rake magnitude azimuth : ℝ) (g : VLabs.GreensStore) :
    VLabs.SeismicPlot.generateWaveforms strike dip rake magnitude azimuth g =
      VLabs.SeismicSimulator.generateWaveforms strike dip rake magnitude
        azimuth g := rfl

open VLabs in
/-- C3: for all eigen-solver outputs (three eigenvalues with their
eigenvector columns, in original index order 0, 1, 2), after the stable
ascending sort by eigenvalue the P axis (`sorted[0]`) carries the smallest
eigenvalue, the B axis (`sorted[1]`) the middle, and the T axis
(`sorted[2]`) the largest, so `λ_P ≤ λ_B ≤ λ_T`; the sorted list is a
permutation of the input pairs, and ties preserve the eigen-solver's
original index order (stability). -/
theorem C3_principal_axes_sorted_stable (v0 v1 v2 : ℝ)
    (w : ℕ → ℝ × ℝ × ℝ) :
    (principalAxes v0 v1 v2 w).1.val ≤ (principalAxes v0 v1 v2 w).2.1.val ∧
    (principalAxes v0 v1 v2 w).2.1.val ≤
      (principalAxes v0 v1 v2 w).2.2.val ∧
    (principalAxes v0 v1 v2 w).1.val = min v0 (min v1 v2) ∧
    (principalAxes v0 v1 v2 w).2.2.val = max v0 (max v1 v2) ∧
    (sortedEigPairs v0 v1 v2 w).Perm
      [⟨v0, 0, w 0⟩, ⟨v1, 1, w 1⟩, ⟨v2, 2, w 2⟩] ∧
    (sortedEigPairs v0 v1 v2 w).Pairwise
      (fun a b => a.val = b.val → a.idx < b.idx) := by
  have base : sortedEigPairs v0 v1 v2 w =
      insertAsc ⟨v0, 0, w 0⟩ (insertAsc ⟨v1, 1, w 1⟩ [⟨v2, 2, w 2⟩]) := rfl
  rcases le_or_lt v1 v2 with h12 | h12
  · have e1 : insertAsc (⟨v1, 1, w 1⟩ : EigPair) [⟨v2, 2, w 2⟩] =
        [⟨v1, 1, w 1⟩, ⟨v2, 2, w 2⟩] := insertAsc_cons_le _ _ _ h12
    rcases le_or_lt v0 v1 with h01 | h01
    · have hlist : sortedEigPairs v0 v1 v2 w =
          [⟨v0, 0, w 0⟩, ⟨v1, 1, w 1⟩, ⟨v2, 2, w 2⟩] := by
        rw [base, e1, insertAsc_cons_le _ _ _ h01]
      rw [principalAxes_eq v0 v1 v2 w _ _ _ hlist, hlist]
      refine ⟨by linarith, by linarith,
        by simp only [min_def]; split_ifs <;> linarith,
        by simp only [max_def]; split_ifs <;> linarith,
        List.Perm.refl _, ?_⟩
      refine List.Pairwise.cons ?_ (List.Pairwise.cons ?_
        (List.Pairwise.cons (fun q hq => absurd hq (List.not_mem_nil q))
          List.Pairwise.nil))
      · intro q hq
        rcases List.mem_cons.mp hq with rfl | hq
        · intro _; norm_num
        · rcases List.mem_singleton.mp hq with rfl
          intro _; norm_num
      · intro q hq
        rcases List.mem_singleton.mp hq with rfl
        intro _; norm_num
    · rcases le_or_lt v0 v2 with h02 | h02
      · have hlist : sortedEigPairs v0 v1 v2 w =
            [⟨v1, 1, w 1⟩, ⟨v0, 0, w 0⟩, ⟨v2, 2, w 2⟩] := by
          rw [base, e1, insertAsc_cons_gt _ _ _ (by simpa using not_le.mpr h01),
            insertAsc_cons_le _ _ _ h02]
        rw [principalAxes_eq v0 v1 v2 w _ _ _ hlist, hlist]
        refine ⟨by linarith, by linarith,
          by simp only [min_def]; split_ifs <;> linarith,
          by simp only [max_def]; split_ifs <;> linarith,
          List.Perm.swap _ _ _, ?_⟩
        refine List.Pairwise.cons ?_ (List.Pairwise.cons ?_
          (List.Pairwise.cons (fun q hq => absurd hq (List.not_mem_nil q))
            List.Pairwise.nil))
        · intro q hq
          rcases List.mem_cons.mp hq with rfl | hq
          · intro hval
            exfalso
            simp only at hval
            linarith
          · rcases List.mem_singleton.mp hq with rfl
            intro _; norm_num
        · intro q hq
          rcases List.mem_singleton.mp hq with rfl
          intro _; norm_num
      · have hlist : sortedEigPairs v0 v1 v2 w =
            [⟨v1, 1, w 1⟩, ⟨v2, 2, w 2⟩, ⟨v0, 0, w 0⟩] := by
          rw [base, e1, insertAsc_cons_gt _ _ _ (by simpa using not_le.mpr h01),
            insertAsc_cons_gt _ _ _ (by simpa using not_le.mpr h02)]
          rfl
        rw [principalAxes_eq v0 v1 v2 w _ _ _ hlist, hlist]
        refine ⟨by linarith, by linarith,
          by simp only [min_def]; split_ifs <;> linarith,
          by simp only [max_def]; split_ifs <;> linarith,
          (List.Perm.cons _ (List.Perm.swap _ _ _)).trans
            (List.Perm.swap _ _ _), ?_⟩
        refine List.Pairwise.cons ?_ (List.Pairwise.cons ?_
          (List.Pairwise.cons (fun q hq => absurd hq (List.not_mem_nil q))
            List.Pairwise.nil))
        · intro q hq
          rcases List.mem_cons.mp hq with rfl | hq
          · intro _; norm_num
          · rcases List.mem_singleton.mp hq with rfl
            intro hval
            exfalso
            simp only at hval
            linarith
        · intro q hq
          rcases List.mem_singleton.mp hq with rfl
          intro hval
          exfalso
          simp only at hval
          linarith
  · have e1 : insertAsc (⟨v1, 1, w 1⟩ : EigPair) [⟨v2, 2, w 2⟩] =
        [⟨v2, 2, w 2⟩, ⟨v1, 1, w 1⟩] := by
      rw [insertAsc_cons_gt _ _ _ (by simpa using not_le.mpr h12)]
      rfl
    rcases le_or_lt v0 v2 with h02 | h02
    · have hlist : sortedEigPairs v0 v1 v2 w =
          [⟨v0, 0, w 0⟩, ⟨v2, 2, w 2⟩, ⟨v1, 1, w 1⟩] := by
        rw [base, e1, insertAsc_cons_le _ _ _ h02]
      rw [principalAxes_eq v0 v1 v2 w _ _ _ hlist, hlist]
      refine ⟨by linarith, by linarith,
        by simp only [min_def]; split_ifs <;> linarith,
        by simp only [max_def]; split_ifs <;> linarith,
        List.Perm.cons _ (List.Perm.swap _ _ _), ?_⟩
      refine List.Pairwise.cons ?_ (List.Pairwise.cons ?_
        (List.Pairwise.cons (fun q hq => absurd hq (List.not_mem_nil q))
          List.Pairwise.nil))
      · intro q hq
        rcases List.mem_cons.mp hq with rfl | hq
        · intro _; norm_num
        · rcases List.mem_singleton.mp hq with rfl
          intro _; norm_num
      · intro q hq
        rcases List.mem_singleton.mp hq with rfl
        intro hval
        exfalso
        simp only at hval
        linarith
    · rcases le_or_lt v0 v1 with h01 | h01
      · have hlist : sortedEigPairs v0 v1 v2 w =
            [⟨v2, 2, w 2⟩, ⟨v0, 0, w 0⟩, ⟨v1, 1, w 1⟩] := by
          rw [base, e1, insertAsc_cons_gt _ _ _ (by simpa using not_le.mpr h02),
            insertAsc_cons_le _ _ _ h01]
        rw [principalAxes_eq v0 v1 v2 w _ _ _ hlist, hlist]
        refine ⟨by linarith, by linarith,
          by simp only [min_def]; split_ifs <;> linarith,
          by simp only [max_def]; split_ifs <;> linarith,
          (List.Perm.swap _ _ _).trans
            (List.Perm.cons _ (List.Perm.swap _ _ _)), ?_⟩
        refine List.Pairwise.cons ?_ (List.Pairwise.cons ?_
          (List.Pairwise.cons (fun q hq => absurd hq (List.not_mem_nil q))
            List.Pairwise.nil))
        · intro q hq
          rcases List.mem_cons.mp hq with rfl | hq
          · intro hval
            exfalso
            simp only at hval
            linarith
          · rcases List.mem_singleton.mp hq with rfl
            intro hval
            exfalso
            simp only at hval
            linarith
        · intro q hq
          rcases List.mem_singleton.mp hq with rfl
          intro _; norm_num
      · have hlist : sortedEigPairs v0 v1 v2 w =
            [⟨v2, 2, w 2⟩, ⟨v1, 1, w 1⟩, ⟨v0, 0, w 0⟩] := by
          rw [base, e1, insertAsc_cons_gt _ _ _ (by simpa using not_le.mpr h02),
            insertAsc_cons_gt _ _ _ (by simpa using not_le.mpr h01)]
          rfl
        rw [principalAxes_eq v0 v1 v2 w _ _ _ hlist, hlist]
        refine ⟨by linarith, by linarith,
          by simp only [min_def]; split_ifs <;> linarith,
          by simp only [max_def]; split_ifs <;> linarith,
          (List.Perm.swap _ _ _).trans
            ((List.Perm.cons _ (List.Perm.swap _ _ _)).trans
              (List.Perm.swap _ _ _)), ?_⟩
        refine List.Pairwise.cons ?_ (List.Pairwise.cons ?_
          (List.Pairwise.cons (fun q hq => absurd hq (List.not_mem_nil q))
            List.Pairwise.nil))
        · intro q hq
          rcases List.mem_cons.mp hq with rfl | hq
          · intro hval
            exfalso
            simp only at hval
            linarith
          · rcases List.mem_singleton.mp hq with rfl
            intro hval
            exfalso
            simp only at hval
            linarith
        · intro q hq
          rcases List.mem_singleton.mp hq with rfl
          intro hval
          exfalso
          simp only at hval
          linarith
